import Mathlib

/-!
Shallow embedding of the serde deserializer adapter in
crates/core/src/serialize/de.rs of sqlc-dev/javy.

The adapter bridges a dynamically typed QuickJS value into serde's
visitor-driven decoding protocol.  The embedding models:

* the dynamic value interface consumed from the runtime binding layer
  (representation-class predicates, fallible extractions, container
  access) as a tree-shaped value type whose attribute fields answer the
  exact queries the adapter makes;
* the visitor protocol by an event type: each call of the adapter issues
  exactly one decoding notification (or fails), which the embedding
  records as the returned event;
* panics (unreachable!, unimplemented!) by an explicit outcome
  constructor, distinct from an error returned to the caller;
* the external collaborators that live in this repository but outside
  the provided sources (the property enumerator, the key-normalization
  utility, the protocol-side key/value targets) from the specification,
  as marked on each definition.
-/

namespace JavyDe

/-- Floating-point values as extracted by the runtime binding layer
(Value::as_f64).  NaN and the two infinities are explicit constructors so
that their propagation through the adapter can be stated exactly; finite
values carry a rational payload. -/
inductive JSFloat where
  | nan
  | posInf
  | negInf
  | finite (q : Rat)
deriving DecidableEq

/-- The adapter error type (serialize::err::Error): a single opaque
variant carrying a human-readable message. -/
inductive DeError where
  | custom (msg : String)
deriving DecidableEq

/-- Discriminator: is this result an error returned to the caller? -/
def exceptIsError {α : Type} : Except DeError α → Bool
  | .error _ => true
  | .ok _ => false

/-- Attributes of a dynamic value, answering exactly the queries the
adapter makes through the binding layer: the representation-class
predicates, the fallible extractions, and the raw 64-bit inner
representation (Value::inner, modelled as a natural number of bits). -/
structure JSAttrs where
  reprI32 : Bool := false
  reprF64 : Bool := false
  boolTag : Bool := false
  nullOrUndef : Bool := false
  strTag : Bool := false
  arrayTag : Bool := false
  objectTag : Bool := false
  i32val : Int := 0
  f64val : Except DeError JSFloat := .error (.custom "not a float")
  boolval : Except DeError Bool := .error (.custom "not a bool")
  strval : Except DeError String := .error (.custom "not a string")
  inner : Nat := 0

/-- A dynamic value: its queryable attributes plus its children — named
properties reachable through get_property, indexed elements reachable
through get_indexed_property, and the own-enumerable properties yielded
by the property enumerator, in enumeration order. -/
inductive JSValue where
  | mk (attrs : JSAttrs)
       (named : List (String × JSValue))
       (indexed : List JSValue)
       (enumProps : List (String × JSValue))

def JSValue.attrs : JSValue → JSAttrs
  | .mk a _ _ _ => a

def JSValue.named : JSValue → List (String × JSValue)
  | .mk _ n _ _ => n

def JSValue.indexed : JSValue → List JSValue
  | .mk _ _ i _ => i

def JSValue.enumProps : JSValue → List (String × JSValue)
  | .mk _ _ _ p => p

/-- Value::is_repr_as_i32 from the binding layer. -/
def JSValue.is_repr_as_i32 (v : JSValue) : Bool := v.attrs.reprI32

/-- Value::is_repr_as_f64 from the binding layer. -/
def JSValue.is_repr_as_f64 (v : JSValue) : Bool := v.attrs.reprF64

/-- Value::is_bool from the binding layer. -/
def JSValue.is_bool (v : JSValue) : Bool := v.attrs.boolTag

/-- Value::is_null_or_undefined from the binding layer. -/
def JSValue.is_null_or_undefined (v : JSValue) : Bool := v.attrs.nullOrUndef

/-- Value::is_str from the binding layer. -/
def JSValue.is_str (v : JSValue) : Bool := v.attrs.strTag

/-- Value::is_array from the binding layer. -/
def JSValue.is_array (v : JSValue) : Bool := v.attrs.arrayTag

/-- Value::is_object from the binding layer. -/
def JSValue.is_object (v : JSValue) : Bool := v.attrs.objectTag

/-- Value::as_i32 (infallible in the adapter). -/
def JSValue.as_i32 (v : JSValue) : Int := v.attrs.i32val

/-- Value::as_f64 (fallible). -/
def JSValue.as_f64 (v : JSValue) : Except DeError JSFloat := v.attrs.f64val

/-- Value::as_bool (fallible). -/
def JSValue.as_bool (v : JSValue) : Except DeError Bool := v.attrs.boolval

/-- Value::as_str (fallible). -/
def JSValue.as_str (v : JSValue) : Except DeError String := v.attrs.strval

/-- Value::inner: the raw 64-bit representation of the value handle. -/
def JSValue.inner (v : JSValue) : Nat := v.attrs.inner

/-- Value::get_property (fallible named-property access). -/
def JSValue.get_property (v : JSValue) (name : String) :
    Except DeError JSValue :=
  match v.named.lookup name with
  | some w => .ok w
  | none => .error (.custom "no such property")

/-- Value::get_indexed_property (fallible indexed access). -/
def JSValue.get_indexed_property (v : JSValue) (i : Nat) :
    Except DeError JSValue :=
  match v.indexed.get? i with
  | some w => .ok w
  | none => .error (.custom "index out of bounds")

/-- Modelled from the spec: the enumerable-property enumerator returned
by get-enumerable-properties (crate module js_binding::properties, not
among the provided sources).  next-key advances over the own-enumerable
properties in enumeration order; next-value, valid after a key, yields
the value of the property most recently yielded by next-key. -/
structure Properties where
  remaining : List (String × JSValue)
  current : Except DeError JSValue

/-- Modelled from the spec: Properties::next_key — yields the next raw
key and remembers its value for a following next_value, or signals
exhaustion. -/
def Properties.next_key : Properties → Option String × Properties
  | ⟨[], cur⟩ => (none, ⟨[], cur⟩)
  | ⟨(k, v) :: rest, _⟩ => (some k, ⟨rest, .ok v⟩)

/-- Modelled from the spec: Properties::next_value — the value of the
property most recently yielded by next_key (fallible). -/
def Properties.next_value (p : Properties) :
    Except DeError (JSValue × Properties) :=
  match p.current with
  | .error e => .error e
  | .ok v => .ok (v, p)

/-- Value::properties: obtain the own-enumerable property enumerator. -/
def JSValue.properties (v : JSValue) : Except DeError Properties :=
  .ok ⟨v.enumProps, .error (.custom "no current property")⟩

/-- DeserializerValue: the single mutable cursor slot, holding either a
raw dynamic value awaiting classification or an already-extracted string
destined to be presented as a mapping key. -/
inductive DeserializerValue where
  | value (v : JSValue)
  | mapKey (k : String)

/-- The adapter instance: its one mutable slot. -/
structure Deserializer where
  value : DeserializerValue

/-- The Sequence Cursor (SeqAccess): captured container handle, captured
length, and the zero-based element cursor. -/
structure SeqAccess where
  seq : JSValue
  length : Nat
  index : Nat

/-- The decoding notification issued by one call of the adapter: the
visitor method invoked and its argument.  The adapter issues exactly one
notification per call (or fails), which the embedding records as the
returned event; visit_seq and visit_map carry the freshly built cursor
handed to the visitor. -/
inductive VisitEvent where
  | str (s : String)
  | i32 (n : Int)
  | f64 (f : JSFloat)
  | boolVal (b : Bool)
  | unit
  | seq (acc : SeqAccess)
  | map (acc : Properties)

/-- deserialize_any: the Value Classifier.  On a map-key slot it
unconditionally notifies a string; on a raw value it runs the ordered
first-match-wins chain of representation-class checks from the source. -/
def deserialize_any (d : Deserializer) : Except DeError VisitEvent :=
  match d.value with
  | .mapKey key => .ok (.str key)
  | .value v =>
    if v.is_repr_as_i32 then .ok (.i32 v.as_i32)
    else if v.is_repr_as_f64 then
      match v.as_f64 with
      | .error e => .error e
      | .ok f => .ok (.f64 f)
    else if v.is_bool then
      match v.as_bool with
      | .error e => .error e
      | .ok b => .ok (.boolVal b)
    else if v.is_null_or_undefined then .ok .unit
    else if v.is_str then
      match v.as_str with
      | .error e => .error e
      | .ok s => .ok (.str s)
    else if v.is_array then
      match v.get_property "length" with
      | .error e => .error e
      | .ok lenVal =>
        .ok (.seq { seq := v, length := lenVal.inner % 2 ^ 32, index := 0 })
    else if v.is_object then
      match v.properties with
      | .error e => .error e
      | .ok props => .ok (.map props)
    else .error (.custom "could not deserialize value")

/-- Outcome of an adapter entry point that may panic: a value, an error
returned to the caller, or a panic (a different termination mode — the
call never returns to the caller with a Result). -/
inductive RunOutcome (α : Type) where
  | ok (a : α)
  | err (e : DeError)
  | panic (msg : String)

/-- Discriminator: is this outcome an error returned to the caller? -/
def RunOutcome.isErr {α : Type} : RunOutcome α → Bool
  | .err _ => true
  | _ => false

/-- Discriminator: is this outcome a panic? -/
def RunOutcome.isPanic {α : Type} : RunOutcome α → Bool
  | .panic _ => true
  | _ => false

/-- The notification issued by deserialize_option: visit_none, or
visit_some applied to the adapter itself (carried so that re-entry on
the same cursor is visible in the event). -/
inductive OptEvent where
  | visitNone
  | visitSome (d : Deserializer)

/-- deserialize_option: on a map-key slot the source executes
unreachable! (a panic); on a raw value it tests null-or-undefined
directly — visit_none when absent, visit_some on the same adapter when
present.  General classification is not consulted. -/
def deserialize_option (d : Deserializer) : RunOutcome OptEvent :=
  match d.value with
  | .mapKey _ => .panic "internal error: entered unreachable code"
  | .value v =>
    if v.is_null_or_undefined then .ok .visitNone
    else .ok (.visitSome d)

/-- deserialize_enum: the source body is unimplemented!, which panics
with the standard message; the visitor is never invoked and no Result is
returned. -/
def deserialize_enum (_d : Deserializer) (_name : String)
    (_variants : List String) : RunOutcome VisitEvent :=
  .panic "not implemented"

/-- SeqAccess::next_element_seed.  The seed (the recursive decode of the
element) is a parameter, as in the source; the step returns the seed
result wrapped as present together with the advanced cursor, or none on
exhaustion.  The deserializer handed to the seed is the adapter whose
slot was overwritten with the fetched element. -/
def next_element_seed {α : Type} (s : SeqAccess)
    (seed : Deserializer → Except DeError α) :
    Except DeError (Option α × SeqAccess) :=
  if s.index < s.length then
    match s.seq.get_indexed_property s.index with
    | .error e => .error e
    | .ok v =>
      match seed ⟨DeserializerValue.value v⟩ with
      | .error e => .error e
      | .ok a => .ok (some a, { s with index := s.index + 1 })
  else .ok (none, s)

/-- Modelled from the spec: characterwise step of the snake-case
normalization (crate function sanitize_key with convert_case::Case::Snake,
not among the provided sources).  Space and hyphen become underscores; an
uppercase letter is lowercased, preceded by an underscore unless it opens
the string or follows a separator; everything else passes through. -/
def snakeStep (acc : List Char) (c : Char) : List Char :=
  if c = ' ' ∨ c = '-' then acc ++ ['_']
  else if c.isUpper then
    if acc = [] ∨ acc.getLast? = some '_' then acc ++ [c.toLower]
    else acc ++ ['_', c.toLower]
  else acc ++ [c]

/-- Modelled from the spec: snake-case normalization of a property name
(camelCase, kebab-case, space-separated and accented text become
lowercase underscore-separated; already-snake text is unchanged). -/
def toSnake (s : String) : String := ⟨s.data.foldl snakeStep []⟩

/-- Modelled from the spec: sanitize_key, the fallible key-normalization
utility; this concrete instance always succeeds with the snake-case
rewriting. -/
def sanitize_key (s : String) : Except DeError String := .ok (toSnake s)

/-- MapAccess::next_key_seed.  The normalization utility is an external
collaborator and is passed as a parameter (the concrete instance is
sanitize_key); the seed is the recursive decode of the key.  On a fresh
key the adapter slot is overwritten with the normalized key (never the
raw key) before the seed runs; a normalization failure is a decode
error; exhaustion of the enumerator yields none. -/
def next_key_seed {κ : Type} (san : String → Except DeError String)
    (de : Deserializer) (props : Properties)
    (seed : Deserializer → Except DeError κ) :
    Except DeError (Option κ × Deserializer × Properties) :=
  match props.next_key with
  | (some rawKey, props') =>
    match san rawKey with
    | .error e => .error e
    | .ok key =>
      match seed ⟨DeserializerValue.mapKey key⟩ with
      | .error e => .error e
      | .ok a => .ok (some a, ⟨DeserializerValue.mapKey key⟩, props')
  | (none, props') => .ok (none, de, props')

/-- MapAccess::next_value_seed: fetch the value of the current property,
overwrite the adapter slot with it, and run the seed (the recursive
decode of the value). -/
def next_value_seed {ν : Type} (_de : Deserializer) (props : Properties)
    (seed : Deserializer → Except DeError ν) :
    Except DeError (ν × Deserializer × Properties) :=
  match props.next_value with
  | .error e => .error e
  | .ok (v, props') =>
    match seed ⟨DeserializerValue.value v⟩ with
    | .error e => .error e
    | .ok a => .ok (a, ⟨DeserializerValue.value v⟩, props')

/-- Modelled from the spec: the decoding protocol target for a string
(the key seed of a string-keyed mapping).  It accepts exactly the string
notification; any other notification is a type-mismatch decode error. -/
def string_seed (d : Deserializer) : Except DeError String :=
  match deserialize_any d with
  | .ok (.str s) => .ok s
  | .ok _ => .error (.custom "invalid type, expected a string")
  | .error e => .error e

/-- Modelled from the spec: the decoding protocol target for a 32-bit
integer.  It accepts exactly the integer notification; in particular a
string notification — the only notification a map key ever produces — is
a type-mismatch decode error, never a numeric coercion. -/
def i32_seed (d : Deserializer) : Except DeError Int :=
  match deserialize_any d with
  | .ok (.i32 n) => .ok n
  | .ok _ => .error (.custom "invalid type, expected i32")
  | .error e => .error e

/-- Modelled from the spec: the protocol-side loop decoding a whole
mapping — key step, then value step, until the key step reports
exhaustion (the loop serde runs for a map target).  Fuel bounds the
recursion; it is always taken larger than the property list. -/
def decode_map_entries {κ ν : Type}
    (keySeed : Deserializer → Except DeError κ)
    (valSeed : Deserializer → Except DeError ν) :
    Nat → Deserializer → Properties → Except DeError (List (κ × ν))
  | 0, _, _ => .error (.custom "out of fuel")
  | fuel + 1, de, props =>
    match next_key_seed sanitize_key de props keySeed with
    | .error e => .error e
    | .ok (none, _, _) => .ok []
    | .ok (some k, de', props') =>
      match next_value_seed de' props' valSeed with
      | .error e => .error e
      | .ok (v, de'', props'') =>
        match decode_map_entries keySeed valSeed fuel de'' props'' with
        | .error e => .error e
        | .ok rest => .ok ((k, v) :: rest)

/-- A seed that records the raw dynamic value placed in the adapter slot
(used to observe which elements a sequence decode visits, in order). -/
def value_seed (d : Deserializer) : Except DeError JSValue :=
  match d.value with
  | .value v => .ok v
  | .mapKey _ => .error (.custom "expected a value slot")

/-- Modelled from the spec: the protocol-side loop decoding a whole
sequence — element steps until exhaustion.  Fuel bounds the recursion. -/
def decode_seq_elems : Nat → SeqAccess → Except DeError (List JSValue)
  | 0, _ => .error (.custom "out of fuel")
  | fuel + 1, s =>
    match next_element_seed s value_seed with
    | .error e => .error e
    | .ok (none, _) => .ok []
    | .ok (some v, s') =>
      match decode_seq_elems fuel s' with
      | .error e => .error e
      | .ok rest => .ok (v :: rest)

/-! Concrete dynamic values used to instantiate the theorems: each sets
exactly the attributes the corresponding QuickJS value answers. -/

/-- An integer-tagged dynamic value. -/
def intVal (n : Int) : JSValue :=
  .mk { reprI32 := true, i32val := n } [] [] []

/-- A dynamic value that is both integer-safe and float-safe (a runtime
may answer both predicates for a whole number). -/
def intFloatVal (n : Int) (f : JSFloat) : JSValue :=
  .mk { reprI32 := true, reprF64 := true, i32val := n, f64val := .ok f }
    [] [] []

/-- A float-tagged dynamic value. -/
def floatVal (f : JSFloat) : JSValue :=
  .mk { reprF64 := true, f64val := .ok f } [] [] []

/-- A boolean-tagged dynamic value. -/
def boolJS (b : Bool) : JSValue :=
  .mk { boolTag := true, boolval := .ok b } [] [] []

/-- The null value (raw tag bits 2, arbitrary but distinct). -/
def nullVal : JSValue :=
  .mk { nullOrUndef := true, inner := 2 } [] [] []

/-- The undefined value (raw tag bits 3, distinct from null). -/
def undefinedVal : JSValue :=
  .mk { nullOrUndef := true, inner := 3 } [] [] []

/-- A string-tagged dynamic value. -/
def strVal (s : String) : JSValue :=
  .mk { strTag := true, strval := .ok s } [] [] []

/-- A number value reduced to its raw inner bits, as read from an array
length property. -/
def lengthVal (bits : Nat) : JSValue :=
  .mk { inner := bits } [] [] []

/-- An array-shaped value: a length property holding the given raw bits
and the given indexed elements. -/
def arrayVal (elems : List JSValue) (lengthBits : Nat) : JSValue :=
  .mk { arrayTag := true } [("length", lengthVal lengthBits)] elems []

/-- An object-shaped value with the given own-enumerable properties. -/
def objectVal (props : List (String × JSValue)) : JSValue :=
  .mk { objectTag := true } [] [] props

/-- A value no classification branch accepts (a function or a symbol). -/
def functionVal : JSValue := .mk {} [] [] []

/-- The three-element array of the sequence claim. -/
def arr3 : JSValue := arrayVal [intVal 10, intVal 20, intVal 30] 3

/-- The object with the single numeric-looking property name 1337. -/
def obj1337 : JSValue := objectVal [("1337", intVal 42)]

/-! Theorems about the embedded adapter. -/

/-- Claim C1: on a raw value, deserialize_any issues exactly one decoding
notification, chosen by the fixed first-match-wins order — integer-safe
gives the 32-bit integer notification; otherwise float-safe gives the
64-bit float notification; otherwise boolean; otherwise null-or-undefined
gives unit; otherwise string; otherwise array-shaped gives the sequence
notification; otherwise object-shaped gives the mapping notification; any
remaining value is a decode error.  In particular a value satisfying both
the integer-safe and float-safe predicates is notified as an integer.
Exactly-one is structural: the embedding returns the single notification
the call issues. -/
theorem deserialize_any_first_match_policy :
    (∀ v : JSValue, v.is_repr_as_i32 = true →
      deserialize_any ⟨.value v⟩ = .ok (.i32 v.as_i32)) ∧
    (∀ (v : JSValue) (f : JSFloat), v.is_repr_as_i32 = false →
      v.is_repr_as_f64 = true → v.as_f64 = .ok f →
      deserialize_any ⟨.value v⟩ = .ok (.f64 f)) ∧
    (∀ (v : JSValue) (b : Bool), v.is_repr_as_i32 = false →
      v.is_repr_as_f64 = false → v.is_bool = true → v.as_bool = .ok b →
      deserialize_any ⟨.value v⟩ = .ok (.boolVal b)) ∧
    (∀ v : JSValue, v.is_repr_as_i32 = false → v.is_repr_as_f64 = false →
      v.is_bool = false → v.is_null_or_undefined = true →
      deserialize_any ⟨.value v⟩ = .ok .unit) ∧
    (∀ (v : JSValue) (s : String), v.is_repr_as_i32 = false →
      v.is_repr_as_f64 = false → v.is_bool = false →
      v.is_null_or_undefined = false → v.is_str = true →
      v.as_str = .ok s → deserialize_any ⟨.value v⟩ = .ok (.str s)) ∧
    (∀ (v lenV : JSValue), v.is_repr_as_i32 = false →
      v.is_repr_as_f64 = false → v.is_bool = false →
      v.is_null_or_undefined = false → v.is_str = false →
      v.is_array = true → v.get_property "length" = .ok lenV →
      deserialize_any ⟨.value v⟩ =
        .ok (.seq { seq := v, length := lenV.inner % 2 ^ 32, index := 0 })) ∧
    (∀ (v : JSValue) (props : Properties), v.is_repr_as_i32 = false →
      v.is_repr_as_f64 = false → v.is_bool = false →
      v.is_null_or_undefined = false → v.is_str = false →
      v.is_array = false → v.is_object = true → v.properties = .ok props →
      deserialize_any ⟨.value v⟩ = .ok (.map props)) ∧
    (∀ v : JSValue, v.is_repr_as_i32 = false → v.is_repr_as_f64 = false →
      v.is_bool = false → v.is_null_or_undefined = false →
      v.is_str = false → v.is_array = false → v.is_object = false →
      deserialize_any ⟨.value v⟩ =
        .error (.custom "could not deserialize value")) ∧
    (∀ v : JSValue, v.is_repr_as_i32 = true → v.is_repr_as_f64 = true →
      deserialize_any ⟨.value v⟩ = .ok (.i32 v.as_i32)) := by
  refine ⟨?_, ?_, ?_, ?_, ?_, ?_, ?_, ?_, ?_⟩
  · intro v h1
    simp [deserialize_any, h1]
  · intro v f h1 h2 h3
    simp [deserialize_any, h1, h2, h3]
  · intro v b h1 h2 h3 h4
    simp [deserialize_any, h1, h2, h3, h4]
  · intro v h1 h2 h3 h4
    simp [deserialize_any, h1, h2, h3, h4]
  · intro v s h1 h2 h3 h4 h5 h6
    simp [deserialize_any, h1, h2, h3, h4, h5, h6]
  · intro v lenV h1 h2 h3 h4 h5 h6 h7
    simp [deserialize_any, h1, h2, h3, h4, h5, h6, h7]
  · intro v props h1 h2 h3 h4 h5 h6 h7 h8
    simp [deserialize_any, h1, h2, h3, h4, h5, h6, h7, h8]
  · intro v h1 h2 h3 h4 h5 h6 h7
    simp [deserialize_any, h1, h2, h3, h4, h5, h6, h7]
  · intro v h1 _h2
    simp [deserialize_any, h1]

/-- Witness for C1: each branch exercised at a concrete value; the last
conjunct shows a value that is both integer-safe and float-safe decodes
as the integer 5, not the float. -/
theorem deserialize_any_first_match_policy_witness :
    deserialize_any ⟨.value (intVal 7)⟩ = .ok (.i32 7) ∧
    deserialize_any ⟨.value (floatVal (.finite (5 / 2)))⟩ =
      .ok (.f64 (.finite (5 / 2))) ∧
    deserialize_any ⟨.value (boolJS true)⟩ = .ok (.boolVal true) ∧
    deserialize_any ⟨.value nullVal⟩ = .ok .unit ∧
    deserialize_any ⟨.value (strVal "hi")⟩ = .ok (.str "hi") ∧
    deserialize_any ⟨.value arr3⟩ =
      .ok (.seq { seq := arr3, length := 3, index := 0 }) ∧
    deserialize_any ⟨.value obj1337⟩ =
      .ok (.map ⟨[("1337", intVal 42)],
        .error (.custom "no current property")⟩) ∧
    deserialize_any ⟨.value functionVal⟩ =
      .error (.custom "could not deserialize value") ∧
    deserialize_any ⟨.value (intFloatVal 5 (.finite 5))⟩ = .ok (.i32 5) :=
  ⟨deserialize_any_first_match_policy.1 (intVal 7) rfl,
   deserialize_any_first_match_policy.2.1 (floatVal (.finite (5 / 2)))
     (.finite (5 / 2)) rfl rfl rfl,
   deserialize_any_first_match_policy.2.2.1 (boolJS true) true
     rfl rfl rfl rfl,
   deserialize_any_first_match_policy.2.2.2.1 nullVal rfl rfl rfl rfl,
   deserialize_any_first_match_policy.2.2.2.2.1 (strVal "hi") "hi"
     rfl rfl rfl rfl rfl rfl,
   deserialize_any_first_match_policy.2.2.2.2.2.1 arr3 (lengthVal 3)
     rfl rfl rfl rfl rfl rfl rfl,
   deserialize_any_first_match_policy.2.2.2.2.2.2.1 obj1337
     ⟨[("1337", intVal 42)], .error (.custom "no current property")⟩
     rfl rfl rfl rfl rfl rfl rfl rfl,
   deserialize_any_first_match_policy.2.2.2.2.2.2.2.1 functionVal
     rfl rfl rfl rfl rfl rfl rfl,
   deserialize_any_first_match_policy.2.2.2.2.2.2.2.2 (intFloatVal 5 (.finite 5))
     rfl rfl⟩

/-- Claim C2, counterexample: at a concrete call — a null-valued cursor,
enum name E, no variants — deserialize_enum does not return a decode
error to the caller; its unimplemented! body panics with the standard
not-implemented message, a different termination mode. -/
theorem deserialize_enum_counterexample :
    (deserialize_enum ⟨.value nullVal⟩ "E" []).isErr = false ∧
    deserialize_enum ⟨.value nullVal⟩ "E" [] = .panic "not implemented" :=
  ⟨rfl, rfl⟩

/-- Claim C2 as amended: for every call to deserialize_enum, regardless
of the dynamic value or cursor state, the adapter immediately panics via
unimplemented! with the standard not-implemented message; it never
returns a decoded value and never silently misdecodes, but the failure
is a panic, not a decode error returned to the caller. -/
theorem deserialize_enum_always_panics :
    ∀ (d : Deserializer) (name : String) (variants : List String),
      deserialize_enum d name variants = .panic "not implemented" ∧
      (deserialize_enum d name variants).isErr = false := by
  intro d name variants
  exact ⟨rfl, rfl⟩

/-- Claim C3: whenever classification takes the float branch, the f64
notification carries exactly the value the runtime extraction produced,
with no clamping or substitution; in particular NaN stays NaN, positive
infinity stays positive infinity, and negative infinity stays negative
infinity. -/
theorem float_branch_preserves_extraction :
    (∀ (v : JSValue) (f : JSFloat), v.is_repr_as_i32 = false →
      v.is_repr_as_f64 = true → v.as_f64 = .ok f →
      deserialize_any ⟨.value v⟩ = .ok (.f64 f)) ∧
    (∀ v : JSValue, v.is_repr_as_i32 = false → v.is_repr_as_f64 = true →
      v.as_f64 = .ok .nan → deserialize_any ⟨.value v⟩ = .ok (.f64 .nan)) ∧
    (∀ v : JSValue, v.is_repr_as_i32 = false → v.is_repr_as_f64 = true →
      v.as_f64 = .ok .posInf →
      deserialize_any ⟨.value v⟩ = .ok (.f64 .posInf)) ∧
    (∀ v : JSValue, v.is_repr_as_i32 = false → v.is_repr_as_f64 = true →
      v.as_f64 = .ok .negInf →
      deserialize_any ⟨.value v⟩ = .ok (.f64 .negInf)) := by
  refine ⟨?_, ?_, ?_, ?_⟩ <;> intro v
  · intro f h1 h2 h3
    simp [deserialize_any, h1, h2, h3]
  all_goals intro h1 h2 h3
  all_goals simp [deserialize_any, h1, h2, h3]

/-- Witness for C3: NaN and the two infinities each propagate exactly
through the float branch at a concrete float-tagged value. -/
theorem float_branch_preserves_extraction_witness :
    deserialize_any ⟨.value (floatVal .nan)⟩ = .ok (.f64 .nan) ∧
    deserialize_any ⟨.value (floatVal .posInf)⟩ = .ok (.f64 .posInf) ∧
    deserialize_any ⟨.value (floatVal .negInf)⟩ = .ok (.f64 .negInf) :=
  ⟨float_branch_preserves_extraction.2.1 (floatVal .nan) rfl rfl rfl,
   float_branch_preserves_extraction.2.2.1 (floatVal .posInf) rfl rfl rfl,
   float_branch_preserves_extraction.2.2.2 (floatVal .negInf) rfl rfl rfl⟩

/-- Claim C4: every value classified as null and every value classified
as undefined receives the same unit notification from general
classification, so decoding into a unit target succeeds and the two
inputs are indistinguishable to the adapter at this layer — even when
their raw representations differ. -/
theorem null_undefined_collapse_to_unit :
    ∀ v w : JSValue, v.is_repr_as_i32 = false → v.is_repr_as_f64 = false →
      v.is_bool = false → v.is_null_or_undefined = true →
      w.is_repr_as_i32 = false → w.is_repr_as_f64 = false →
      w.is_bool = false → w.is_null_or_undefined = true →
      deserialize_any ⟨.value v⟩ = .ok .unit ∧
      deserialize_any ⟨.value v⟩ = deserialize_any ⟨.value w⟩ := by
  intro v w h1 h2 h3 h4 g1 g2 g3 g4
  constructor
  · simp [deserialize_any, h1, h2, h3, h4]
  · simp [deserialize_any, h1, h2, h3, h4, g1, g2, g3, g4]

/-- Witness for C4: the concrete null value (raw bits 2) and the
concrete undefined value (raw bits 3) both decode to the unit
notification and are indistinguishable. -/
theorem null_undefined_collapse_to_unit_witness :
    deserialize_any ⟨.value nullVal⟩ = .ok .unit ∧
    deserialize_any ⟨.value nullVal⟩ =
      deserialize_any ⟨.value undefinedVal⟩ :=
  null_undefined_collapse_to_unit nullVal undefinedVal
    rfl rfl rfl rfl rfl rfl rfl rfl

/-- Claim C5: the object whose single property is literally named 1337
decodes into a string-keyed mapping — classification issues the mapping
notification, the protocol loop with a string key target succeeds, and
the value 42 is retrievable under the string key 1337 — while the same
object decoded into a mapping keyed by a numeric target type fails with
a decode error: keys are always presented as strings, never numerically
coerced. -/
theorem numeric_looking_key_stays_string :
    deserialize_any ⟨.value obj1337⟩ =
      .ok (.map ⟨[("1337", intVal 42)],
        .error (.custom "no current property")⟩) ∧
    decode_map_entries string_seed i32_seed 2 ⟨.value obj1337⟩
      ⟨[("1337", intVal 42)], .error (.custom "no current property")⟩ =
      .ok [("1337", 42)] ∧
    List.lookup "1337" [("1337", (42 : Int))] = some 42 ∧
    exceptIsError (decode_map_entries i32_seed i32_seed 2 ⟨.value obj1337⟩
      ⟨[("1337", intVal 42)], .error (.custom "no current property")⟩) =
      true :=
  ⟨rfl, rfl, rfl, rfl⟩

/-- Claim C6: the Sequence Cursor step contract — below the captured
length the element at the cursor is fetched by indexed access, the
cursor advances by one, the adapter slot is set to that element, and the
recursive decode result is returned as present; at the length the step
reports exhaustion with the state unchanged; the cursor invariant is
preserved; an array of captured length 3 yields exactly its 3 elements
in index order; and a length-0 cursor reports exhaustion for every
container, so no indexed access is invoked on an empty array. -/
theorem seq_cursor_step_contract :
    (∀ (s : SeqAccess) (e : JSValue), s.index < s.length →
      s.seq.get_indexed_property s.index = .ok e →
      next_element_seed s value_seed =
        .ok (some e, { s with index := s.index + 1 })) ∧
    (∀ {α : Type} (seed : Deserializer → Except DeError α)
       (s : SeqAccess) (e : JSValue) (a : α), s.index < s.length →
      s.seq.get_indexed_property s.index = .ok e →
      seed ⟨.value e⟩ = .ok a →
      next_element_seed s seed =
        .ok (some a, { s with index := s.index + 1 })) ∧
    (∀ {α : Type} (seed : Deserializer → Except DeError α)
       (s : SeqAccess), s.index = s.length →
      next_element_seed s seed = .ok (none, s)) ∧
    (∀ {α : Type} (seed : Deserializer → Except DeError α)
       (s s' : SeqAccess) (p : Option α), s.index ≤ s.length →
      next_element_seed s seed = .ok (p, s') → s'.index ≤ s'.length) ∧
    (∀ (c : JSValue) {α : Type} (seed : Deserializer → Except DeError α),
      next_element_seed ⟨c, 0, 0⟩ seed = .ok (none, ⟨c, 0, 0⟩)) ∧
    (deserialize_any ⟨.value arr3⟩ =
      .ok (.seq { seq := arr3, length := 3, index := 0 }) ∧
     decode_seq_elems 4 { seq := arr3, length := 3, index := 0 } =
      .ok [intVal 10, intVal 20, intVal 30]) := by
  refine ⟨?_, ?_, ?_, ?_, ?_, rfl, rfl⟩
  · intro s e hlt hget
    simp [next_element_seed, hlt, hget, value_seed]
  · intro α seed s e a hlt hget hseed
    simp [next_element_seed, hlt, hget, hseed]
  · intro α seed s heq
    simp [next_element_seed, heq]
  · intro α seed s s' p hle hstep
    by_cases hlt : s.index < s.length
    · simp only [next_element_seed, if_pos hlt] at hstep
      cases hget : s.seq.get_indexed_property s.index with
      | error e => simp only [hget] at hstep; cases hstep
      | ok v =>
        simp only [hget] at hstep
        cases hseed : seed ⟨.value v⟩ with
        | error e => simp only [hseed] at hstep; cases hstep
        | ok a =>
          simp only [hseed, Except.ok.injEq, Prod.mk.injEq] at hstep
          rw [← hstep.2]
          exact Nat.succ_le_of_lt hlt
    · simp only [next_element_seed, if_neg hlt] at hstep
      cases hstep
      exact hle
  · intro c α seed
    simp [next_element_seed]

/-- Witness for C6: the concrete three-element array — the first step
fetches element 0, advances the cursor to 1, and preserves the
invariant; a step at the captured length reports exhaustion. -/
theorem seq_cursor_step_contract_witness :
    next_element_seed { seq := arr3, length := 3, index := 0 } value_seed =
      .ok (some (intVal 10), { seq := arr3, length := 3, index := 1 }) ∧
    next_element_seed { seq := arr3, length := 3, index := 3 } value_seed =
      .ok (none, { seq := arr3, length := 3, index := 3 }) ∧
    (1 : Nat) ≤ 3 :=
  ⟨seq_cursor_step_contract.1 { seq := arr3, length := 3, index := 0 }
     (intVal 10) (by decide) rfl,
   seq_cursor_step_contract.2.2.1 value_seed
     { seq := arr3, length := 3, index := 3 } rfl,
   seq_cursor_step_contract.2.2.2.1 value_seed
     { seq := arr3, length := 3, index := 0 }
     { seq := arr3, length := 3, index := 1 } (some (intVal 10))
     (by decide)
     (seq_cursor_step_contract.1 { seq := arr3, length := 3, index := 0 }
       (intVal 10) (by decide) rfl)⟩

/-- Claim C7: deserialize_option with the cursor holding a raw dynamic
value notifies absent when the value is null or undefined — by testing
the predicate directly, for every such value, without consulting general
classification — and otherwise notifies present by re-entering on the
very same cursor. -/
theorem deserialize_option_presence :
    (∀ v : JSValue, v.is_null_or_undefined = true →
      deserialize_option ⟨.value v⟩ = .ok .visitNone) ∧
    (∀ v : JSValue, v.is_null_or_undefined = false →
      deserialize_option ⟨.value v⟩ =
        .ok (.visitSome ⟨.value v⟩)) := by
  constructor <;> intro v h <;> simp [deserialize_option, h]

/-- Witness for C7: the concrete null value is reported absent; a
concrete integer value is reported present on the same cursor. -/
theorem deserialize_option_presence_witness :
    deserialize_option ⟨.value nullVal⟩ = .ok .visitNone ∧
    deserialize_option ⟨.value (intVal 7)⟩ =
      .ok (.visitSome ⟨.value (intVal 7)⟩) :=
  ⟨deserialize_option_presence.1 nullVal rfl,
   deserialize_option_presence.2 (intVal 7) rfl⟩

/-- Claim C8: the Mapping Cursor key step — when the enumerator yields a
raw key, the key is passed through normalization, the normalized key
(not the raw key) is stored in the adapter slot, and decoding it through
the key branch of classification always succeeds as that string; a
normalization failure makes the step a decode error; an exhausted
enumerator makes the step report exhaustion, terminating the mapping. -/
theorem map_key_step_contract :
    (∀ (san : String → Except DeError String) (de : Deserializer)
       (rawKey key : String) (v : JSValue)
       (rest : List (String × JSValue)) (cur : Except DeError JSValue),
      san rawKey = .ok key →
      next_key_seed san de ⟨(rawKey, v) :: rest, cur⟩ string_seed =
        .ok (some key, ⟨.mapKey key⟩, ⟨rest, .ok v⟩) ∧
      deserialize_any ⟨.mapKey key⟩ = .ok (.str key)) ∧
    (∀ (san : String → Except DeError String) (de : Deserializer)
       (rawKey : String) (v : JSValue) (rest : List (String × JSValue))
       (cur : Except DeError JSValue) (e : DeError) {κ : Type}
       (seed : Deserializer → Except DeError κ),
      san rawKey = .error e →
      next_key_seed san de ⟨(rawKey, v) :: rest, cur⟩ seed = .error e) ∧
    (∀ (san : String → Except DeError String) (de : Deserializer)
       (cur : Except DeError JSValue) {κ : Type}
       (seed : Deserializer → Except DeError κ),
      next_key_seed san de ⟨[], cur⟩ seed = .ok (none, de, ⟨[], cur⟩)) := by
  refine ⟨?_, ?_, ?_⟩
  · intro san de rawKey key v rest cur hsan
    refine ⟨?_, rfl⟩
    simp [next_key_seed, Properties.next_key, hsan, string_seed,
      deserialize_any]
  · intro san de rawKey v rest cur e κ seed hsan
    simp [next_key_seed, Properties.next_key, hsan]
  · intro san de cur κ seed
    simp [next_key_seed, Properties.next_key]

/-- Witness for C8: with the concrete normalizer, the raw key fooBar is
normalized to foo_bar, stored, and decoded as that string; a normalizer
that rejects its input turns the step into that decode error; the empty
enumerator reports exhaustion. -/
theorem map_key_step_contract_witness :
    (next_key_seed sanitize_key ⟨.value obj1337⟩
      ⟨[("fooBar", intVal 3)], .error (.custom "no current property")⟩
      string_seed =
      .ok (some "foo_bar", ⟨.mapKey "foo_bar"⟩,
        ⟨[], .ok (intVal 3)⟩) ∧
     deserialize_any ⟨.mapKey "foo_bar"⟩ = .ok (.str "foo_bar")) ∧
    next_key_seed (fun _ => .error (.custom "bad key"))
      ⟨.value obj1337⟩
      ⟨[("fooBar", intVal 3)], .error (.custom "no current property")⟩
      string_seed = .error (.custom "bad key") ∧
    next_key_seed sanitize_key ⟨.value obj1337⟩
      ⟨[], .error (.custom "no current property")⟩ string_seed =
      .ok (none, ⟨.value obj1337⟩,
        ⟨[], .error (.custom "no current property")⟩) :=
  ⟨map_key_step_contract.1 sanitize_key ⟨.value obj1337⟩ "fooBar" "foo_bar"
     (intVal 3) [] (.error (.custom "no current property")) rfl,
   map_key_step_contract.2.1 (fun _ => .error (.custom "bad key"))
     ⟨.value obj1337⟩ "fooBar" (intVal 3) []
     (.error (.custom "no current property")) (.custom "bad key")
     string_seed rfl,
   map_key_step_contract.2.2 sanitize_key ⟨.value obj1337⟩
     (.error (.custom "no current property")) string_seed⟩

/-- Claim C9: deserialize_option invoked while the cursor holds an
extracted map key panics (the unreachable! assertion) rather than
returning a decode error; and whenever the cursor holds a raw dynamic
value — as it does whenever the protocol requests an option for a value
— the call never panics, so the panic branch is unreachable under that
precondition. -/
theorem deserialize_option_mapkey_panics :
    (∀ k : String,
      deserialize_option ⟨.mapKey k⟩ =
        .panic "internal error: entered unreachable code" ∧
      (deserialize_option ⟨.mapKey k⟩).isErr = false) ∧
    (∀ v : JSValue,
      (deserialize_option ⟨.value v⟩).isPanic = false) := by
  constructor
  · intro k
    exact ⟨rfl, rfl⟩
  · intro v
    by_cases h : v.is_null_or_undefined <;>
      simp [deserialize_option, h, RunOutcome.isPanic]

/-- Claim C10: for every array-shaped value, the Sequence Cursor is
built with its captured length taken from the length property by
reinterpreting the raw inner representation modulo 2 to the 32 — a bit
truncation, not a checked or semantic numeric conversion. -/
theorem array_length_is_raw_bits_truncated :
    ∀ (v lenV : JSValue), v.is_repr_as_i32 = false →
      v.is_repr_as_f64 = false → v.is_bool = false →
      v.is_null_or_undefined = false → v.is_str = false →
      v.is_array = true → v.get_property "length" = .ok lenV →
      deserialize_any ⟨.value v⟩ =
        .ok (.seq { seq := v, length := lenV.inner % 2 ^ 32, index := 0 }) := by
  intro v lenV h1 h2 h3 h4 h5 h6 h7
  simp [deserialize_any, h1, h2, h3, h4, h5, h6, h7]

/-- Witness for C10: an array whose length property carries the raw bits
2 to the 32 plus 3 is captured with length 3 — the upper bits are
truncated away, which a semantic conversion would not do. -/
theorem array_length_is_raw_bits_truncated_witness :
    deserialize_any ⟨.value (arrayVal [] (2 ^ 32 + 3))⟩ =
      .ok (.seq ⟨arrayVal [] (2 ^ 32 + 3), 3, 0⟩) := by
  have h := array_length_is_raw_bits_truncated (arrayVal [] (2 ^ 32 + 3))
    (lengthVal (2 ^ 32 + 3)) rfl rfl rfl rfl rfl rfl rfl
  simpa using h

end JavyDe
